import Mathlib

/-!
Shallow embedding of `runner/worker.go` (gRPC load-testing worker core):
the sequential scheduler loop `runWorker`, the per-request builder
`makeRequest`, the payload source `getMessages`, and the streaming
protocol adapters (`makeClientStreamingRequest`,
`makeServerStreamingRequest`, `makeBidiRequest`).

External collaborators (template engine, payload decoders, the gRPC stub
operations, the condition checker, the cancellation channel) are modelled
as oracle functions; machine state that the Go code threads implicitly
(the binary payload cache, the loop counters) is passed explicitly.
Messages are opaque and modelled as `Nat`; elapsed time is modelled as the
iteration index (the claims under study do not depend on real durations).
-/

namespace Runner

/-- Opaque payload message (`*dynamic.Message` in the source). -/
abbrev Msg := Nat

/-- Go `error` values distinguished by the worker code: `io.EOF`, the
"no data provided for request" error from `makeRequest`, and arbitrary
other errors (transport, template, decode ...). `Option GoErr` plays the
role of a nillable Go `error` (`none` = `nil`). -/
inductive GoErr where
  | eof
  | noData
  | other (s : String)
deriving DecidableEq, Repr

/-- `multierr.Append`: the sequential scheduler's accumulated error is a
multi-error, modelled as the list of non-nil errors appended so far
(`[]` plays the role of a `nil` combined error). Appending `nil` leaves
the accumulation unchanged. -/
def multierrAppend (acc : List GoErr) (e : Option GoErr) : List GoErr :=
  match e with
  | none => acc
  | some e => acc ++ [e]

/-- `ConditionChecker` from worker.go: `func(string, error, int, time.Duration) bool`
(worker id, last error, requests issued by this worker, elapsed time).
Elapsed time is abstracted to the iteration index. -/
abbrev ConditionChecker := String → Option GoErr → Nat → Nat → Bool

/-- Sequential scheduler loop `(*Worker).runWorker`, worker.go:59-82.

Oracles: `done i` tells whether the `<-w.done` select case fires at
iteration `i`; `makeRequestResult r` is the outcome of `w.makeRequest r`.
Explicit state: `iter` (iteration index, also the abstract elapsed time),
`rErr` (the OUTER `rErr` variable of `var err, rErr error` — note that
line 74 of the source, `rErr := w.makeRequest(reqNum)`, declares a NEW
shadowing variable, so the outer `rErr` read by `cond` is never written;
the model mirrors that by passing `rErr` through unchanged), `errAcc`
(the `err` multi-error accumulator), `n` (requests issued by this
worker), `counter` (the shared atomic request counter).

`fuel` bounds the number of loop iterations; the result is `none` when
the loop has not returned within `fuel` iterations, and `some e` when it
returned the (multi-)error `e`. On `<-w.done` the source returns `nil`,
i.e. `some []`. -/
def runWorker (cond : ConditionChecker) (stopOnCond : Bool)
    (done : Nat → Bool) (makeRequestResult : Nat → Option GoErr)
    (workerID : String) :
    Nat → Nat → Option GoErr → List GoErr → Nat → Nat → Option (List GoErr)
  | 0, _, _, _, _, _ => none
  | fuel + 1, iter, rErr, errAcc, n, counter =>
    if done iter then
      some []
    else if cond workerID rErr n iter then
      let reqNum := counter + 1
      let r := makeRequestResult reqNum
      runWorker cond stopOnCond done makeRequestResult workerID
        fuel (iter + 1) rErr (multierrAppend errAcc r) (n + 1) reqNum
    else if stopOnCond then
      some errAcc
    else
      runWorker cond stopOnCond done makeRequestResult workerID
        fuel (iter + 1) rErr errAcc n counter

/-- Modelled from the spec: the sequential scheduler as §4.1 describes it,
evaluating the Condition Policy "with the last observed error" — i.e. the
variant of `runWorker` in which the outcome of each `makeRequest` is
stored back into the variable that the next `cond` evaluation reads.
Used only to exhibit the divergence between the source (which, through
the `:=` shadowing at worker.go:74, never updates that variable) and the
spec's intended behaviour. -/
def runWorkerSpecIntent (cond : ConditionChecker) (stopOnCond : Bool)
    (done : Nat → Bool) (makeRequestResult : Nat → Option GoErr)
    (workerID : String) :
    Nat → Nat → Option GoErr → List GoErr → Nat → Nat → Option (List GoErr)
  | 0, _, _, _, _, _ => none
  | fuel + 1, iter, rErr, errAcc, n, counter =>
    if done iter then
      some []
    else if cond workerID rErr n iter then
      let reqNum := counter + 1
      let r := makeRequestResult reqNum
      runWorkerSpecIntent cond stopOnCond done makeRequestResult workerID
        fuel (iter + 1) r (multierrAppend errAcc r) (n + 1) reqNum
    else if stopOnCond then
      some errAcc
    else
      runWorkerSpecIntent cond stopOnCond done makeRequestResult workerID
        fuel (iter + 1) rErr errAcc n counter

/-- A condition checker that continues exactly while the last observed
error argument is nil: under the spec's description it stops the worker
right after the first failed request. -/
def condStopOnErr : ConditionChecker := fun _ e _ _ => e.isNone

/-- A `makeRequest` outcome oracle under which every request fails. -/
def reqAlwaysFail : Nat → Option GoErr := fun _ => some (GoErr.other "boom")

/-- The external collaborators `getMessages` calls: the template engine
(`ctd.executeData`, keyed by the request number that seeded the template
context) and the two payload decoders. Each returns data or a Go error. -/
structure Collaborators where
  executeData : Nat → String → Except GoErr String
  createPayloadsFromJSON : String → Except GoErr (List Msg)
  createPayloadsFromBin : String → Except GoErr (List Msg)

/-- Output of one `getMessages` call: its `([]*dynamic.Message, error)`
result, the worker's `cachedMessages` field after the call, and whether a
payload decoder (`createPayloadsFromJSON` / `createPayloadsFromBin`) was
invoked during the call. -/
structure GetMessagesOut where
  result : Except GoErr (List Msg)
  newCache : Option (List Msg)
  decoded : Bool
deriving Repr

/-- `(*Worker).getMessages`, worker.go:198-226. `cache` is the worker's
`cachedMessages` field on entry; `reqNum` keys the template context
`ctd`; `inputData` is the byte slice argument. A non-nil cache is
returned unchanged; JSON results are never cached (templating); binary
decode results are stored in the cache on success. -/
def getMessages (binary : Bool) (collab : Collaborators)
    (cache : Option (List Msg)) (reqNum : Nat) (inputData : String) :
    GetMessagesOut :=
  match cache with
  | some msgs => ⟨.ok msgs, some msgs, false⟩
  | none =>
    if !binary then
      match collab.executeData reqNum inputData with
      | .error e => ⟨.error e, none, false⟩
      | .ok data =>
        match collab.createPayloadsFromJSON data with
        | .error e => ⟨.error e, none, true⟩
        | .ok inputs => ⟨.ok inputs, none, true⟩
    else
      match collab.createPayloadsFromBin inputData with
      | .error e => ⟨.error e, none, true⟩
      | .ok inputs => ⟨.ok inputs, some inputs, true⟩

/-- A sequence of `getMessages` calls threading the worker's cache, as a
worker issuing many requests performs: returns the per-call results, the
final cache, and the total number of decoder invocations across the run. -/
def getMessagesRun (binary : Bool) (collab : Collaborators) :
    Option (List Msg) → List (Nat × String) →
    List (Except GoErr (List Msg)) × Option (List Msg) × Nat
  | cache, [] => ([], cache, 0)
  | cache, (n, d) :: rest =>
    let out := getMessages binary collab cache n d
    let r := getMessagesRun binary collab out.newCache rest
    (out.result :: r.1, r.2.1, (if out.decoded then 1 else 0) + r.2.2)

/-- The two streaming flags of the method descriptor that `makeRequest`
dispatches on. -/
structure MethodDesc where
  isClientStreaming : Bool
  isServerStreaming : Bool
deriving DecidableEq, Repr

/-- The four RPC shapes. -/
inductive CallShape where
  | unary
  | clientStream
  | serverStream
  | bidi
deriving DecidableEq, Repr

/-- Call-shape classification from the two streaming flags, in the order
`makeRequest` tests them (worker.go:185-193). -/
def callShapeOf (mtd : MethodDesc) : CallShape :=
  if mtd.isClientStreaming && mtd.isServerStreaming then .bidi
  else if mtd.isClientStreaming then .clientStream
  else if mtd.isServerStreaming then .serverStream
  else .unary

/-- The worker fields and collaborator oracles `makeRequest` reads:
`w.config.binary`, `w.mtd`, `w.arrayJSONData`, `w.config.data`,
`w.config.metadata`, the metadata template expansion
(`ctd.executeMetadata`, keyed by request number), the adapter outcome for
a dispatched call (an oracle over shape, full input list, and the
selected unary input), and the `getMessages` collaborators. -/
structure MakeReqEnv where
  binary : Bool
  mtd : MethodDesc
  arrayJSONData : List String
  data : String
  metadata : String
  executeMetadata : Nat → String → Except GoErr (List (String × String))
  adapterResult : CallShape → List Msg → Msg → Option GoErr
  collab : Collaborators

/-- Output of one `makeRequest` call: its returned error (`none` = nil),
the cache after the call, which adapter (if any) was invoked, the index
chosen in the `arrayJSONData` rotation (when that path was taken), and
the index `inputIdx` of the selected unary input (when reached). -/
structure MakeRequestOut where
  result : Option GoErr
  newCache : Option (List Msg)
  invokedAdapter : Option CallShape
  jsonRotationIndex : Option Nat
  unaryInputIndex : Option Nat
deriving DecidableEq, Repr

/-- The payload-resolution step of `makeRequest`, worker.go:117-127: the
optimized JSON-rotation path when not binary, not client-streaming, and
`arrayJSONData` is non-empty (choosing index `(reqNum-1) mod len`), else
the plain path over `config.data`. Returns the `getMessages` outcome and
the rotation index taken, if any. -/
def makeRequestGM (env : MakeReqEnv) (cache : Option (List Msg))
    (reqNum : Nat) : GetMessagesOut × Option Nat :=
  if !env.binary && !env.mtd.isClientStreaming
      && decide (0 < env.arrayJSONData.length) then
    let indx := (reqNum - 1) % env.arrayJSONData.length
    (getMessages env.binary env.collab cache reqNum
      (env.arrayJSONData.getD indx ""), some indx)
  else
    (getMessages env.binary env.collab cache reqNum env.data, none)

/-- `(*Worker).makeRequest`, worker.go:110-196. Resolves payloads
(`makeRequestGM`), expands the metadata template, fails with the
"no data provided for request" error when the resolved payload list is
empty, selects `inputIdx = (reqNum-1) mod len(inputs)`, dispatches to the
adapter for the method's shape with `_ =` (result discarded), and
returns `err` — which at that point is the nil left by the successful
metadata expansion. -/
def makeRequest (env : MakeReqEnv) (cache : Option (List Msg))
    (reqNum : Nat) : MakeRequestOut :=
  let gm := makeRequestGM env cache reqNum
  match gm.1.result with
  | .error e => ⟨some e, gm.1.newCache, none, gm.2, none⟩
  | .ok inputs =>
    match env.executeMetadata reqNum env.metadata with
    | .error e => ⟨some e, gm.1.newCache, none, gm.2, none⟩
    | .ok _ =>
      if inputs.length = 0 then
        ⟨some GoErr.noData, gm.1.newCache, none, gm.2, none⟩
      else
        let inputIdx := (reqNum - 1) % inputs.length
        let unaryInput := inputs.getD inputIdx 0
        let shape := callShapeOf env.mtd
        let _ := env.adapterResult shape inputs unaryInput
        ⟨none, gm.1.newCache, some shape, gm.2, some inputIdx⟩

/-- Output of `makeClientStreamingRequest`: its returned error, how many
`SendMsg` calls it performed, and whether `CloseAndReceive` was called. -/
structure ClientStreamOut where
  result : Option GoErr
  sendCount : Nat
  closedAndReceived : Bool
deriving DecidableEq, Repr

/-- The `for err == nil` loop of `makeClientStreamingRequest`,
worker.go:245-301. `send k p` is the outcome of `str.SendMsg` for the
`k`-th payload `p`. Each iteration: empty input or `counter == inputLen`
triggers `CloseAndReceive` and break; otherwise the next payload is sent
(after the optional stream-interval wait, which has no observable effect
here); a send returning `io.EOF` triggers `CloseAndReceive` and break; a
send returning any other non-nil error falls out of the loop with no
close; a nil send increments `counter` and loops. `fuel` bounds the
iterations; `input.length + 1` always suffices from `counter = 0`. -/
def clientStreamLoop (send : Nat → Msg → Option GoErr) (input : List Msg) :
    Nat → Nat → Nat → ClientStreamOut
  | 0, _, sends => ⟨none, sends, false⟩
  | fuel + 1, counter, sends =>
    if input.length = 0 then
      ⟨none, sends, true⟩
    else if counter = input.length then
      ⟨none, sends, true⟩
    else
      match send counter (input.getD counter 0) with
      | none => clientStreamLoop send input fuel (counter + 1) (sends + 1)
      | some e =>
        if e = GoErr.eof then ⟨none, sends + 1, true⟩
        else ⟨none, sends + 1, false⟩

/-- `(*Worker).makeClientStreamingRequest`, worker.go:228-303. `openRes`
is the outcome of `InvokeRpcClientStream`; on an open error the loop is
skipped (its condition `err == nil` is false). The function ends with
`return nil` on every path. -/
def makeClientStreamingRequest (openRes : Option GoErr)
    (send : Nat → Msg → Option GoErr) (input : List Msg) : ClientStreamOut :=
  match openRes with
  | some _ => ⟨none, 0, false⟩
  | none => clientStreamLoop send input (input.length + 1) 0 0

/-- The receive loop of `makeServerStreamingRequest`, worker.go:319-334.
`recv k` is the outcome of the `k`-th `str.RecvMsg`. The loop condition
reads the OUTER `err` (the open result), while line 320 of the source,
`res, err := str.RecvMsg()`, declares a NEW shadowing `err` inside the
loop body: the receive error — even after the dead `io.EOF`
normalisation — is discarded at the `break`, and the function returns
the outer `err`, which is nil once the stream opened. `fuel` bounds the
iterations; `none` means the loop has not terminated within `fuel`
(the stream kept delivering messages), `some r` that the function
returned `r`. -/
def serverStreamRecvLoop (recv : Nat → Except GoErr Msg) :
    Nat → Nat → Option (Option GoErr)
  | 0, _ => none
  | fuel + 1, k =>
    match recv k with
    | .ok _ => serverStreamRecvLoop recv fuel (k + 1)
    | .error _ => some none

/-- `(*Worker).makeServerStreamingRequest`, worker.go:305-337. `openRes`
is the outcome of `InvokeRpcServerStream`: on an open error the loop body
never runs and the open error is returned; otherwise the receive loop
runs and the function returns the outer `err` (nil). -/
def makeServerStreamingRequest (openRes : Option GoErr)
    (recv : Nat → Except GoErr Msg) (fuel : Nat) : Option (Option GoErr) :=
  match openRes with
  | some e => some (some e)
  | none => serverStreamRecvLoop recv fuel 0

/-- Result of the bidi send loop, worker.go:412-440: the final value of
`err`, the number of `SendMsg` calls, and whether `CloseSend` ran. -/
structure BidiSendLoopOut where
  err : Option GoErr
  sendCount : Nat
  closedSend : Bool
deriving DecidableEq, Repr

/-- The `for err == nil` send loop of `makeBidiRequest`. Each iteration:
`counter == inputLen` triggers `CloseSend` and break (with `err` still
nil); otherwise the next payload is sent (after the optional wait) and
`counter` incremented; a non-nil send outcome falls out of the loop with
no `CloseSend`. `fuel` bounds the iterations; `input.length + 1` always
suffices from `counter = 0`. -/
def bidiSendLoop (send : Nat → Msg → Option GoErr) (input : List Msg) :
    Nat → Nat → Nat → BidiSendLoopOut
  | 0, _, sends => ⟨none, sends, false⟩
  | fuel + 1, counter, sends =>
    if counter = input.length then
      ⟨none, sends, true⟩
    else
      match send counter (input.getD counter 0) with
      | none => bidiSendLoop send input fuel (counter + 1) (sends + 1)
      | some e => ⟨some e, sends + 1, false⟩

/-- Output of `makeBidiRequest`: its returned error, whether the
concurrent receive goroutine was started, the send count, whether
`CloseSend` ran, and whether the adapter blocked on `<-recvDone` (i.e.
waited for the receive task to observe stream end) before returning. -/
structure BidiOut where
  result : Option GoErr
  recvTaskStarted : Bool
  sendCount : Nat
  closedSend : Bool
  waitedRecvDone : Bool
deriving DecidableEq, Repr

/-- `(*Worker).makeBidiRequest`, worker.go:359-447. On an open error the
error is returned at once. On an empty input the send side is closed and
nil returned, with no receive goroutine. Otherwise the receive goroutine
is started, the send loop runs, and `<-recvDone` is awaited only under
`if err == nil` (worker.go:442-444); the function then returns nil. The
receive goroutine's own loop ends at the first receive error (including
end-of-stream), which is when `recvDone` is closed; its outcomes never
reach the adapter's result, so they need no oracle here. -/
def makeBidiRequest (openRes : Option GoErr)
    (send : Nat → Msg → Option GoErr) (input : List Msg) : BidiOut :=
  match openRes with
  | some e => ⟨some e, false, 0, false, false⟩
  | none =>
    if input.length = 0 then
      ⟨none, false, 0, true, false⟩
    else
      let sl := bidiSendLoop send input (input.length + 1) 0 0
      ⟨none, true, sl.sendCount, sl.closedSend, sl.err.isNone⟩

/-- Concrete collaborators: identity template engine, a JSON decoder
producing two payloads, a binary decoder producing one. -/
def collabA : Collaborators :=
  { executeData := fun _ s => .ok s
    createPayloadsFromJSON := fun _ => .ok [10, 20]
    createPayloadsFromBin := fun _ => .ok [1] }

/-- Concrete collaborators whose JSON decoder resolves to an empty
payload list. -/
def collabEmpty : Collaborators :=
  { executeData := fun _ s => .ok s
    createPayloadsFromJSON := fun _ => .ok []
    createPayloadsFromBin := fun _ => .ok [] }

/-- Concrete worker environment: non-binary unary method with a rotation
of three JSON payload variants and an adapter whose calls fail. -/
def envA : MakeReqEnv :=
  { binary := false
    mtd := ⟨false, false⟩
    arrayJSONData := ["pa", "pb", "pc"]
    data := "d"
    metadata := "m"
    executeMetadata := fun _ _ => .ok []
    adapterResult := fun _ _ _ => some (GoErr.other "rpc")
    collab := collabA }

/-- Concrete worker environment whose payload resolution yields an empty
list. -/
def envEmpty : MakeReqEnv :=
  { binary := false
    mtd := ⟨false, false⟩
    arrayJSONData := []
    data := "d"
    metadata := "m"
    executeMetadata := fun _ _ => .ok []
    adapterResult := fun _ _ _ => some (GoErr.other "rpc")
    collab := collabEmpty }

/-- C1 counterexample: one iteration issues a request that fails (the
aggregation so far is `[boom]`), the cancellation signal fires at the
next iteration boundary — and `runWorker` returns `some []`, i.e. the
Go `nil`, not the accumulated aggregation `[GoErr.other "boom"]`. -/
theorem runWorker_cancel_discards_accumulated_errors :
    runWorker (fun _ _ _ _ => true) true (fun i => decide (1 ≤ i))
      reqAlwaysFail "w" 5 0 none [] 0 0 = some []
    ∧ reqAlwaysFail 1 = some (GoErr.other "boom")
    ∧ multierrAppend [] (reqAlwaysFail 1) = [GoErr.other "boom"] :=
  ⟨rfl, rfl, rfl⟩

/-- C1 (amended): in sequential mode, when the cancellation signal is
observed at an iteration boundary, `runWorker` returns nil (the empty
aggregation), discarding whatever error aggregation `errAcc` had
accumulated from requests issued before cancellation. -/
theorem runWorker_cancel_returns_nil (cond : ConditionChecker)
    (stopOnCond : Bool) (done : Nat → Bool) (req : Nat → Option GoErr)
    (wid : String) (fuel iter : Nat) (rErr : Option GoErr)
    (errAcc : List GoErr) (n counter : Nat) (h : done iter = true) :
    runWorker cond stopOnCond done req wid (fuel + 1) iter rErr errAcc
      n counter = some [] := by
  simp [runWorker, h]

/-- Witness for `runWorker_cancel_returns_nil` at a concrete state with a
non-empty accumulated aggregation. -/
theorem runWorker_cancel_returns_nil_witness :
    runWorker (fun _ _ _ _ => true) true (fun _ => true) (fun _ => none)
      "w" 1 0 none [GoErr.other "e"] 3 3 = some [] :=
  runWorker_cancel_returns_nil (fun _ _ _ _ => true) true (fun _ => true)
    (fun _ => none) "w" 0 0 none [GoErr.other "e"] 3 3 rfl

/-- C2: the source declares an outer `rErr` read by `cond`, but
worker.go:74 (`rErr := w.makeRequest(reqNum)`) shadows it, so `cond`
always receives nil. Failing input: a condition checker that continues
exactly while its error argument is nil, against requests that all fail.
Per the spec the worker would stop right after the first failed request,
returning the aggregation `[boom]` (the `runWorkerSpecIntent` run); the
source keeps issuing requests and never stops (fuel exhausted, `none`). -/
theorem runWorker_cond_never_sees_last_error :
    runWorker condStopOnErr true (fun _ => false) reqAlwaysFail
      "w" 3 0 none [] 0 0 = none
    ∧ runWorkerSpecIntent condStopOnErr true (fun _ => false) reqAlwaysFail
      "w" 3 0 none [] 0 0 = some [GoErr.other "boom"] :=
  ⟨rfl, rfl⟩

/-- C3 counterexample: stream open succeeds, the single send fails — a
send-path failure occurred, yet `makeBidiRequest` returns nil (its final
statement is `return nil`), contradicting "returns an error exactly when
a send-path failure occurred". -/
theorem makeBidiRequest_send_failure_not_returned :
    (bidiSendLoop (fun _ _ => some (GoErr.other "sendfail")) [7]
      ([7].length + 1) 0 0).err = some (GoErr.other "sendfail")
    ∧ (makeBidiRequest none (fun _ _ => some (GoErr.other "sendfail"))
        [7]).result = none :=
  ⟨rfl, rfl⟩

/-- C3 (amended): `makeBidiRequest` returns an error exactly when opening
the stream fails; after a successful open it always returns nil — neither
send-path nor receive-path failures are part of the returned error. -/
theorem makeBidiRequest_result_eq_open_error (openRes : Option GoErr)
    (send : Nat → Msg → Option GoErr) (input : List Msg) :
    (makeBidiRequest openRes send input).result = openRes := by
  cases openRes with
  | some e => rfl
  | none =>
    simp only [makeBidiRequest]
    split <;> rfl

/-- C4: the code is a slip. Line 320 of the source,
`res, err := str.RecvMsg()`, shadows the outer `err`, so the explicit
`io.EOF` normalisation (worker.go:329-331) is dead and the function
returns the outer `err` — nil whenever the stream opened. Failing input:
open succeeds and the first receive fails with a non-end-of-stream error;
the claim (and the dead normalisation's evident intent) says that error
is returned, the code returns nil (`some none` = "returned nil"). -/
theorem makeServerStreamingRequest_swallows_recv_error :
    makeServerStreamingRequest none
      (fun _ => Except.error (GoErr.other "recvfail")) 5 = some none
    ∧ GoErr.other "recvfail" ≠ GoErr.eof :=
  ⟨rfl, by decide⟩

/-- Helper: on the success path (payloads resolved to a non-empty list,
metadata expansion succeeded) `makeRequest` reaches the adapter dispatch
and its full output is determined. -/
theorem makeRequest_ok (env : MakeReqEnv) (cache : Option (List Msg))
    (reqNum : Nat) (inputs : List Msg) (md : List (String × String))
    (hgm : (makeRequestGM env cache reqNum).1.result = .ok inputs)
    (hmd : env.executeMetadata reqNum env.metadata = .ok md)
    (hne : inputs.length ≠ 0) :
    makeRequest env cache reqNum =
      ⟨none, (makeRequestGM env cache reqNum).1.newCache,
        some (callShapeOf env.mtd), (makeRequestGM env cache reqNum).2,
        some ((reqNum - 1) % inputs.length)⟩ := by
  simp only [makeRequest]
  rw [hgm]
  dsimp only
  rw [hmd]
  simp [hne]

/-- Helper: when the payloads resolve to the empty list and metadata
expansion succeeds, `makeRequest` returns the no-data error with no
adapter invoked. -/
theorem makeRequest_empty (env : MakeReqEnv) (cache : Option (List Msg))
    (reqNum : Nat) (md : List (String × String))
    (hgm : (makeRequestGM env cache reqNum).1.result = .ok [])
    (hmd : env.executeMetadata reqNum env.metadata = .ok md) :
    makeRequest env cache reqNum =
      ⟨some GoErr.noData, (makeRequestGM env cache reqNum).1.newCache,
        none, (makeRequestGM env cache reqNum).2, none⟩ := by
  simp only [makeRequest]
  rw [hgm]
  dsimp only
  rw [hmd]
  simp

/-- C5: on the optimized JSON-rotation path, `makeRequest` selects
rotation index `(n-1) mod K` out of the `K` pre-expanded variants, and
the payload passed to the call is the input at index `(n-1) mod M` of
the `M` resolved payloads; in particular sequence numbers `1..M` select
indices `0..M-1` in order and sequence number `M+1` wraps to index 0. -/
theorem makeRequest_round_robin (env : MakeReqEnv) (cache : Option (List Msg))
    (n M : Nat) (inputs : List Msg) (md : List (String × String))
    (hbin : env.binary = false) (hcs : env.mtd.isClientStreaming = false)
    (hK : 0 < env.arrayJSONData.length)
    (hgm : (makeRequestGM env cache n).1.result = .ok inputs)
    (hmd : env.executeMetadata n env.metadata = .ok md)
    (hM : inputs.length = M) (hM1 : 1 ≤ M) (hn : 1 ≤ n) :
    (makeRequest env cache n).jsonRotationIndex
      = some ((n - 1) % env.arrayJSONData.length)
    ∧ (makeRequest env cache n).unaryInputIndex = some ((n - 1) % M)
    ∧ (n ≤ M → (makeRequest env cache n).unaryInputIndex = some (n - 1))
    ∧ (n = M + 1 → (makeRequest env cache n).unaryInputIndex = some 0) := by
  have hout := makeRequest_ok env cache n inputs md hgm hmd (by omega)
  have hrot : (makeRequestGM env cache n).2
      = some ((n - 1) % env.arrayJSONData.length) := by
    simp [makeRequestGM, hbin, hcs, hK]
  refine ⟨?_, ?_, ?_, ?_⟩
  · rw [hout]
    exact hrot
  · rw [hout, hM]
  · intro hle
    rw [hout, hM]
    have : (n - 1) % M = n - 1 := Nat.mod_eq_of_lt (by omega)
    rw [this]
  · intro heq
    rw [hout, hM]
    subst heq
    simp

/-- Witness for `makeRequest_round_robin`: three JSON variants, two
resolved payloads, request number 3 selects rotation index 2 and input
index 0. -/
theorem makeRequest_round_robin_witness :
    (makeRequest envA none 3).jsonRotationIndex = some 2
    ∧ (makeRequest envA none 3).unaryInputIndex = some 0 := by
  have h := makeRequest_round_robin envA none 3 2 [10, 20] [] rfl rfl
    (by decide) rfl rfl rfl (by decide) (by decide)
  exact ⟨h.1, h.2.1⟩

/-- C6: when the resolved payload set is empty (and metadata expansion
succeeded), `makeRequest` returns the no-data error with no adapter
invoked, and the sequential scheduler's `multierr.Append` records exactly
that error for the request. -/
theorem makeRequest_no_payload (env : MakeReqEnv) (cache : Option (List Msg))
    (reqNum : Nat) (md : List (String × String))
    (hgm : (makeRequestGM env cache reqNum).1.result = .ok [])
    (hmd : env.executeMetadata reqNum env.metadata = .ok md) :
    (makeRequest env cache reqNum).result = some GoErr.noData
    ∧ (makeRequest env cache reqNum).invokedAdapter = none
    ∧ ∀ acc : List GoErr,
        multierrAppend acc (makeRequest env cache reqNum).result
          = acc ++ [GoErr.noData] := by
  have hout := makeRequest_empty env cache reqNum md hgm hmd
  refine ⟨by rw [hout], by rw [hout], ?_⟩
  intro acc
  rw [hout]
  rfl

/-- Witness for `makeRequest_no_payload` at a concrete environment whose
decoder yields no payloads. -/
theorem makeRequest_no_payload_witness :
    (makeRequest envEmpty none 1).result = some GoErr.noData
    ∧ (makeRequest envEmpty none 1).invokedAdapter = none := by
  have h := makeRequest_no_payload envEmpty none 1 [] rfl rfl
  exact ⟨h.1, h.2.1⟩

/-- C7: once the worker's cache of decoded payloads is populated, every
subsequent `getMessages` call returns exactly the cached set, leaves the
cache unchanged, and performs zero decoder invocations — for any number
of further requests, in either mode. -/
theorem getMessages_cached_stable (binary : Bool) (collab : Collaborators)
    (s : List Msg) (calls : List (Nat × String)) :
    getMessagesRun binary collab (some s) calls
      = (calls.map (fun _ => Except.ok s), some s, 0) := by
  induction calls with
  | nil => rfl
  | cons c rest ih =>
    obtain ⟨n, d⟩ := c
    simp [getMessagesRun, getMessages, ih]

/-- C8 counterexample: open succeeds, the single send fails — the send
loop has finished, the receive goroutine was started, yet the adapter
skips the `<-recvDone` wait (worker.go:442-444 guards it with
`err == nil`) and returns, abandoning the receive task. -/
theorem makeBidiRequest_send_failure_abandons_recv :
    (makeBidiRequest none (fun _ _ => some (GoErr.other "x"))
      [0]).recvTaskStarted = true
    ∧ (makeBidiRequest none (fun _ _ => some (GoErr.other "x"))
        [0]).waitedRecvDone = false
    ∧ (makeBidiRequest none (fun _ _ => some (GoErr.other "x"))
        [0]).closedSend = false :=
  ⟨rfl, rfl, rfl⟩

/-- C8 (amended): for a non-empty input, after a successful open the
receive task is always started, and the adapter blocks on the receive
task's completion channel if and only if the send loop finished without
a send error; on a send failure it returns without waiting. -/
theorem makeBidiRequest_waits_iff_send_ok (send : Nat → Msg → Option GoErr)
    (input : List Msg) (h : input.length ≠ 0) :
    (makeBidiRequest none send input).recvTaskStarted = true
    ∧ (makeBidiRequest none send input).waitedRecvDone
      = (bidiSendLoop send input (input.length + 1) 0 0).err.isNone := by
  simp [makeBidiRequest, h]

/-- Witness for `makeBidiRequest_waits_iff_send_ok`: the spec scenario —
two payloads, zero interval, every send succeeds: both are sent, the
send side is closed, and the adapter waits for the receive task. -/
theorem makeBidiRequest_waits_iff_send_ok_witness :
    (makeBidiRequest none (fun _ _ => none) [1, 2]).recvTaskStarted = true
    ∧ (makeBidiRequest none (fun _ _ => none) [1, 2]).waitedRecvDone
      = true := by
  have h := makeBidiRequest_waits_iff_send_ok (fun _ _ => none) [1, 2]
    (by decide)
  refine ⟨h.1, ?_⟩
  rw [h.2]
  rfl

/-- C9: client-streaming with an empty input set, after a successful
open, performs close-and-receive with zero sends and returns nil. -/
theorem makeClientStreamingRequest_empty_input
    (send : Nat → Msg → Option GoErr) :
    makeClientStreamingRequest none send [] = ⟨none, 0, true⟩ :=
  rfl

/-- C10: whenever payload resolution yields a non-empty list and metadata
expansion succeeds, `makeRequest` returns nil for every adapter outcome
oracle and every call shape: the dispatched adapter's result is
discarded, so no invocation error reaches the scheduler. -/
theorem makeRequest_discards_adapter_errors (env : MakeReqEnv)
    (cache : Option (List Msg)) (reqNum : Nat) (inputs : List Msg)
    (md : List (String × String))
    (ad : CallShape → List Msg → Msg → Option GoErr)
    (hgm : (makeRequestGM env cache reqNum).1.result = .ok inputs)
    (hmd : env.executeMetadata reqNum env.metadata = .ok md)
    (hne : inputs.length ≠ 0) :
    (makeRequest { env with adapterResult := ad } cache reqNum).result = none
    ∧ (makeRequest { env with adapterResult := ad } cache
        reqNum).invokedAdapter = some (callShapeOf env.mtd) := by
  obtain ⟨b, mtd, aj, d, m, em, ar, c⟩ := env
  have hout := makeRequest_ok ⟨b, mtd, aj, d, m, em, ad, c⟩ cache reqNum
    inputs md hgm hmd hne
  rw [hout]
  exact ⟨rfl, rfl⟩

/-- Witness for `makeRequest_discards_adapter_errors`: a unary call whose
adapter reports a transport error; `makeRequest` still returns nil. -/
theorem makeRequest_discards_adapter_errors_witness :
    (makeRequest { envA with
        adapterResult := fun _ _ _ => some (GoErr.other "transport") }
      none 1).result = none := by
  have h := makeRequest_discards_adapter_errors envA none 1 [10, 20] []
    (fun _ _ _ => some (GoErr.other "transport")) rfl rfl (by decide)
  exact h.1

end Runner
